import Mathlib

/-!
Verification of the crawl engine of the linuxwebsitecrawling repository.

The definitions below are a shallow embedding of the WebCrawler class
(src/crawler.js): the retry controller makeRequest, the authentication
resolver (authenticate and its four mode handlers), the robots.txt gate
checkRobotsTxt, the extraction pipeline (extractPageData, extractLinks,
extractImages) and the three crawl methods (crawlWithAxios,
crawlWithPuppeteer, crawlWithCurl).  External collaborators (the axios
HTTP client, the URL constructor, the robots-parser library, the DOM) are
modelled as explicit oracle parameters; JavaScript falsy defaulting
(the x || y idiom) is modelled by the jsOr helpers.
-/

namespace WebCrawler

/-- Models the JavaScript expression o || d for a possibly-undefined string
o: undefined (none) and the empty string are falsy, so both fall through to
the default d. -/
def jsOrS (o : Option String) (d : String) : String :=
  match o with
  | none => d
  | some s => if s.isEmpty then d else s

/-- Models the JavaScript expression a || b for two strings: the empty
string is falsy. -/
def jsOr (a b : String) : String :=
  if a.isEmpty then b else a

/-- Models the JavaScript expression n || d for a possibly-undefined
number: undefined and 0 are falsy. -/
def jsOrN (o : Option Nat) (d : Nat) : Nat :=
  match o with
  | none => d
  | some n => if n = 0 then d else n

/-- Models the JavaScript string trim: drops whitespace from both ends.
Defined by structural list recursion so that concrete crawl evaluations
reduce inside the kernel. -/
def strTrim (s : String) : String :=
  String.mk (((s.data.dropWhile Char.isWhitespace).reverse.dropWhile
    Char.isWhitespace).reverse)

/-- Truth of the JavaScript falsiness test !x for a possibly-undefined
string: true when the value is absent or empty. -/
def jsFalsy (o : Option String) : Bool :=
  match o with
  | none => true
  | some s => s.isEmpty

/-- Transport-level response of the axios client, as far as the crawler
inspects it in makeRequest. -/
structure Resp where
  status : Nat
  body : String
deriving DecidableEq, Repr

/--
Retry loop of makeRequest (crawler.js lines 579-589):

  for (let attempt = 1; attempt <= this.options.retries; attempt++) {
    try { return await axios(config); }
    catch (error) {
      if (attempt === this.options.retries) throw error;
      await this.delay(this.options.delay * attempt);
    }
  }

The network is an oracle indexed by the attempt number; the last argument
is the number of loop iterations still available (retries + 1 - attempt),
so the function is structurally recursive and its value is computable.
The result pairs the outcome with the number of attempts actually issued;
the outcome .ok none models the implicit undefined returned when the loop
body never runs (retries = 0).
-/
def makeRequestLoop (net : Nat → Except String Resp) (retries : Nat) :
    Nat → Nat → Except String (Option Resp) × Nat
  | _, 0 => (.ok none, 0)
  | attempt, Nat.succ rem =>
      match net attempt with
      | .ok r => (.ok (some r), 1)
      | .error e =>
          if attempt = retries then (.error e, 1)
          else
            let rest := makeRequestLoop net retries (attempt + 1) rem
            (rest.1, rest.2 + 1)

/-- Credentials object for basic authentication; fields may be absent. -/
structure BasicCreds where
  username : Option String
  password : Option String
deriving DecidableEq, Repr

/-- The credentials.cookies value for cookie authentication: either an
array of name/value objects or a single cookie string. -/
inductive CookieVal where
  | arr : List (String × String) → CookieVal
  | str : String → CookieVal
deriving DecidableEq, Repr

/-- Credentials object for form authentication; loginData is kept abstract
as its serialized form. -/
structure FormCreds where
  loginUrl : Option String
  loginData : Option String
deriving DecidableEq, Repr

/-- The options.auth configuration: a type tag plus mode-specific
credentials; unknown covers any unrecognized type string. -/
inductive AuthConfig where
  | basic : BasicCreds → AuthConfig
  | bearer : Option String → AuthConfig
  | cookie : Option CookieVal → AuthConfig
  | form : FormCreds → AuthConfig
  | unknown : String → AuthConfig
deriving DecidableEq, Repr

/-- Embedding of authenticateBasic (crawler.js lines 707-714): throws when
username or password is absent or empty, otherwise produces the
Authorization header.  The base64 encoder of Buffer is an oracle b64. -/
def authenticateBasic (b64 : String → String) (c : BasicCreds) :
    Except String (List (String × String)) :=
  if jsFalsy c.username || jsFalsy c.password then
    .error "Basic auth requires username and password"
  else
    .ok [("Authorization",
      "Basic " ++ b64 (c.username.getD "" ++ ":" ++ c.password.getD ""))]

/-- Embedding of authenticateBearer (crawler.js lines 716-722). -/
def authenticateBearer (token : Option String) :
    Except String (List (String × String)) :=
  if jsFalsy token then .error "Bearer auth requires token"
  else .ok [("Authorization", "Bearer " ++ token.getD "")]

/-- Joins an array of cookie objects as name=value pairs, as
authenticateCookie does. -/
def joinCookiePairs (l : List (String × String)) : String :=
  String.intercalate "; " (l.map (fun c => c.1 ++ "=" ++ c.2))

/-- Embedding of authenticateCookie (crawler.js lines 724-738): throws when
credentials.cookies is falsy (absent or the empty string), otherwise
normalizes to a single Cookie header. -/
def authenticateCookie (cookies : Option CookieVal) :
    Except String (List (String × String)) :=
  match cookies with
  | none => .error "Cookie auth requires cookies array or string"
  | some (.str s) =>
      if s.isEmpty then .error "Cookie auth requires cookies array or string"
      else .ok [("Cookie", s)]
  | some (.arr l) => .ok [("Cookie", joinCookiePairs l)]

/-- Outcome of the axios.post login exchange in authenticateForm, with
validateStatus accepting 200 <= status < 400: a response outside that
range, like a transport failure, rejects.  The oracle value none models a
transport error; some (status, setCookieHeaders) models a received
response. -/
def axiosPostLogin (resp : Option (Nat × List String)) :
    Except String (Nat × List String) :=
  match resp with
  | none => .error "transport error"
  | some (st, cs) =>
      if 200 ≤ st && st < 400 then .ok (st, cs)
      else .error ("Request failed with status code " ++ toString st)

/-- Takes the part of a Set-Cookie header before the first semicolon, as
cookie.split(";")[0] does. -/
def firstCookiePart (c : String) : String :=
  (c.splitOn ";").headD ""

/-- Joins the Set-Cookie headers of the login response into one Cookie
header value. -/
def joinSetCookies (cs : List String) : String :=
  String.intercalate "; " (cs.map firstCookiePart)

/-- Embedding of authenticateForm (crawler.js lines 740-767): throws when
loginUrl or loginData is missing; posts the login form (the outcome is the
oracle resp); on a rejected post rethrows as a form-authentication
failure; on success returns the joined session cookies, or null when the
response carried no Set-Cookie header. -/
def authenticateForm (resp : Option (Nat × List String)) (c : FormCreds) :
    Except String (Option (List (String × String))) :=
  if jsFalsy c.loginUrl || jsFalsy c.loginData then
    .error "Form auth requires loginUrl and loginData"
  else
    match axiosPostLogin resp with
    | .error e => .error ("Form authentication failed: " ++ e)
    | .ok (_, setCookies) =>
        if setCookies.length > 0 then
          .ok (some [("Cookie", joinSetCookies setCookies)])
        else .ok none

/-- The switch inside the try block of authenticate (crawler.js lines
687-700): dispatches on the auth type; an unknown type logs a warning and
returns null.  Only the form branch consults the login network oracle. -/
def authResolve (b64 : String → String) (resp : Option (Nat × List String)) :
    AuthConfig → Except String (Option (List (String × String)))
  | .basic c => (authenticateBasic b64 c).map some
  | .bearer t => (authenticateBearer t).map some
  | .cookie c => (authenticateCookie c).map some
  | .form c => authenticateForm resp c
  | .unknown _ => .ok none

/-- Embedding of authenticate (crawler.js lines 682-705): returns null when
no auth is configured.  The try/catch around the switch catches only the
throws of the synchronous handlers authenticateBasic and
authenticateBearer, logging them and returning null; authenticateCookie
and authenticateForm are async methods whose promises are returned from
the try block without await, so their rejections settle after the
try/catch is out of scope, bypass the catch, and are adopted by the
promise authenticate returns — modelled as the error outcome, which
surfaces at the awaiting caller. -/
def authenticate (auth : Option AuthConfig) (b64 : String → String)
    (resp : Option (Nat × List String)) :
    Except String (Option (List (String × String))) :=
  match auth with
  | none => .ok none
  | some (.basic c) =>
      match authenticateBasic b64 c with
      | .ok h => .ok (some h)
      | .error _ => .ok none
  | some (.bearer t) =>
      match authenticateBearer t with
      | .ok h => .ok (some h)
      | .error _ => .ok none
  | some (.cookie c) => (authenticateCookie c).map some
  | some (.form c) => authenticateForm resp c
  | some (.unknown _) => .ok none

/-- The fixed request headers composed in makeRequest before the auth
headers are spread in. -/
def baseHeaders (ua : String) : List (String × String) :=
  [("User-Agent", ua),
   ("Accept", "text/html,application/xhtml+xml,application/xml;q=0.9,*/*;q=0.8"),
   ("Accept-Language", "en-US,en;q=0.5"),
   ("Accept-Encoding", "gzip, deflate"),
   ("Connection", "keep-alive"),
   ("Upgrade-Insecure-Requests", "1")]

/-- Embedding of makeRequest (crawler.js lines 556-590): awaits the auth
resolution first — a rejection of the promise authenticate returns (an
unawaited async handler failing) throws here, before the retry loop, so
makeRequest rejects having issued zero attempts — then composes the
request headers and runs the retry loop.  The page network is an oracle
receiving the composed headers and the attempt number; the second
component counts the attempts issued against the target URL. -/
def makeRequest (ua : String) (retries : Nat) (auth : Option AuthConfig)
    (b64 : String → String) (loginResp : Option (Nat × List String))
    (extra : List (String × String))
    (net : List (String × String) → Nat → Except String Resp) :
    Except String (Option Resp) × Nat :=
  match authenticate auth b64 loginResp with
  | .error e => (.error e, 0)
  | .ok authHeaders =>
      let headers := baseHeaders ua ++ (authHeaders.getD []) ++ extra
      makeRequestLoop (net headers) retries 1 retries

/-- Helper for the retry-count theorem: when every attempt fails, a loop
entered at attempt a with a + rem = retries runs its remaining rem + 1
iterations and surfaces the error of the final attempt. -/
theorem makeRequestLoop_allfail (net : Nat → Except String Resp)
    (msg : Nat → String) (retries : Nat)
    (hfail : ∀ k, net k = .error (msg k)) :
    ∀ rem attempt, attempt + rem = retries →
      makeRequestLoop net retries attempt (rem + 1) =
        (.error (msg retries), rem + 1) := by
  intro rem
  induction rem with
  | zero =>
      intro attempt h
      simp only [Nat.add_zero] at h
      simp [makeRequestLoop, hfail, h]
  | succ m ih =>
      intro attempt h
      have hne : attempt ≠ retries := by omega
      have hrec := ih (attempt + 1) (by omega)
      rw [makeRequestLoop.eq_def]
      simp only [hfail, if_neg hne, hrec]

/-- C1 (amended): with the retries option set to r ≥ 1, a permanently
failing fetch is attempted exactly r times in total — the option counts
total attempts, not additional retries — and the error of the final
attempt is surfaced. -/
theorem C1_retry_total_attempts (net : Nat → Except String Resp)
    (msg : Nat → String) (retries : Nat)
    (hfail : ∀ k, net k = .error (msg k)) (hr : 1 ≤ retries) :
    makeRequestLoop net retries 1 retries = (.error (msg retries), retries) := by
  have h := makeRequestLoop_allfail net msg retries hfail (retries - 1) 1 (by omega)
  have hrw : retries - 1 + 1 = retries := by omega
  rw [hrw] at h
  exact h

/-- Witness for C1_retry_total_attempts at retries = 3 and a concrete
always-failing network. -/
theorem C1_retry_total_attempts_witness :
    makeRequestLoop (fun _ => .error "ECONNREFUSED") 3 1 3 =
      (.error "ECONNREFUSED", 3) :=
  C1_retry_total_attempts (fun _ => .error "ECONNREFUSED") (fun _ => "ECONNREFUSED")
    3 (fun _ => rfl) (by omega)

/-- C1 (counterexample to the claim as stated): with retries = 3 a
permanently failing fetch is attempted 3 times, not 4. -/
theorem C1_not_four_attempts :
    (makeRequestLoop (fun _ => .error "ECONNREFUSED") 3 1 3).2 = 3 ∧
    (makeRequestLoop (fun _ => .error "ECONNREFUSED") 3 1 3).2 ≠ 4 ∧
    (makeRequestLoop (fun _ => .error "ECONNREFUSED") 3 1 3).1 =
      .error "ECONNREFUSED" := by
  refine ⟨by decide, by decide, rfl⟩

/-- A form-auth configuration with both loginUrl and loginData present,
used to evaluate the login-failure behavior at a concrete input. -/
def formCredsEx : FormCreds :=
  { loginUrl := some "http://site.example/login", loginData := some "user=u" }

/-- C2 (confirmed): when the login POST of a fully configured form
authentication fails — transport error or status outside 2xx-3xx —
authenticateForm rejects with the login failure; being async and returned
without await, the rejection bypasses the catch of authenticate, is
adopted by the promise authenticate returns, and throws at the await
inside makeRequest before the retry loop: makeRequest surfaces the
login-failure error to its caller having issued zero attempts against the
target URL, so no page request is made with unresolved credentials. -/
theorem C2_login_failure_aborts (c : FormCreds)
    (resp : Option (Nat × List String)) (b64 : String → String) (ua : String)
    (extra : List (String × String))
    (net : List (String × String) → Nat → Except String Resp) (retries : Nat)
    (hurl : jsFalsy c.loginUrl = false) (hdata : jsFalsy c.loginData = false)
    (hfail : ∃ e, axiosPostLogin resp = .error e) :
    (∃ e, authenticate (some (.form c)) b64 resp =
      .error ("Form authentication failed: " ++ e)) ∧
    (∃ e, makeRequest ua retries (some (.form c)) b64 resp extra net =
      (.error ("Form authentication failed: " ++ e), 0)) := by
  obtain ⟨e, he⟩ := hfail
  have hauth : authenticate (some (.form c)) b64 resp =
      .error ("Form authentication failed: " ++ e) := by
    simp [authenticate, authenticateForm, hurl, hdata, he]
  refine ⟨⟨e, hauth⟩, ⟨e, ?_⟩⟩
  simp [makeRequest, hauth]

/-- Witness for C2_login_failure_aborts at a concrete login rejected with
status 401. -/
theorem C2_login_failure_aborts_witness :
    (∃ e, authenticate (some (.form formCredsEx)) (fun s => s) (some (401, [])) =
      .error ("Form authentication failed: " ++ e)) ∧
    (∃ e, makeRequest "UA" 3 (some (.form formCredsEx)) (fun s => s)
      (some (401, [])) [] (fun _ _ => .error "ECONNREFUSED") =
      (.error ("Form authentication failed: " ++ e), 0)) :=
  C2_login_failure_aborts formCredsEx (some (401, [])) (fun s => s) "UA" []
    (fun _ _ => .error "ECONNREFUSED") 3 rfl rfl
    ⟨"Request failed with status code 401", rfl⟩

/-- A basic-auth configuration whose password is present but empty. -/
def basicCredsEx : BasicCreds := { username := some "admin", password := some "" }

/-- C3 (counterexample to the claim as stated): with basic authentication
and an empty password, authenticateBasic does raise the missing-credentials
error without any network call, but authenticate swallows it instead of
surfacing it to the caller, and makeRequest still issues all three
attempts against the target URL. -/
theorem C3_missing_credentials_does_not_abort :
    authResolve (fun s => s) none (.basic basicCredsEx) =
      .error "Basic auth requires username and password" ∧
    authenticate (some (.basic basicCredsEx)) (fun s => s) none = .ok none ∧
    (makeRequest "UA" 3 (some (.basic basicCredsEx)) (fun s => s) none []
      (fun _ _ => .error "ECONNREFUSED")).2 = 3 := by
  refine ⟨rfl, rfl, by decide⟩

/-- C3 (amended): when the basic-auth username or password is absent or
empty, authenticateBasic raises the missing-credentials error with no
network involvement (the result does not depend on the login oracle); the
throw is synchronous, so authenticate genuinely catches it and resolves
to null, and the fetch of the target URL proceeds carrying only the base
headers (no Authorization). -/
theorem C3_missing_credentials_swallowed (c : BasicCreds)
    (resp : Option (Nat × List String)) (b64 : String → String) (ua : String)
    (extra : List (String × String))
    (net : List (String × String) → Nat → Except String Resp) (retries : Nat)
    (hmiss : (jsFalsy c.username || jsFalsy c.password) = true) :
    authResolve b64 resp (.basic c) =
      .error "Basic auth requires username and password" ∧
    authenticate (some (.basic c)) b64 resp = .ok none ∧
    makeRequest ua retries (some (.basic c)) b64 resp extra net =
      makeRequestLoop (net (baseHeaders ua ++ extra)) retries 1 retries := by
  have hb : authenticateBasic b64 c =
      .error "Basic auth requires username and password" := by
    simp [authenticateBasic, hmiss]
  have hres : authResolve b64 resp (.basic c) =
      .error "Basic auth requires username and password" := by
    simp [authResolve, hb, Except.map]
  have hauth : authenticate (some (.basic c)) b64 resp = .ok none := by
    simp [authenticate, hb]
  refine ⟨hres, hauth, ?_⟩
  simp [makeRequest, hauth]

/-- Witness for C3_missing_credentials_swallowed at the concrete
empty-password credentials. -/
theorem C3_missing_credentials_swallowed_witness :
    authenticate (some (.basic basicCredsEx)) (fun s => s) none = .ok none :=
  (C3_missing_credentials_swallowed basicCredsEx none (fun s => s) "UA" []
    (fun _ _ => .error "x") 3 (by decide)).2.1

/-- External collaborators of checkRobotsTxt: the robots.txt network (the
axios.get call, none modelling a rejected request such as a 404 or a
timeout), the URL constructor (none modelling a thrown TypeError), and the
robots-parser library (none modelling a parser that throws on a malformed
body).  parseUrl yields the protocol (with trailing colon, as the URL
class does) and the host. -/
structure RobotsEnv where
  robotsNet : String → Option String
  parseUrl : String → Option (String × String)
  parseRobots : String → String → Option (String → Bool)

/-- The robots.txt location for a parsed URL, as composed in
checkRobotsTxt (protocol + "//" + host + "/robots.txt"). -/
def robotsUrlOf (proto host : String) : String :=
  proto ++ "//" ++ host ++ "/robots.txt"

/--
Embedding of checkRobotsTxt (crawler.js lines 658-676).  The state is the
robotsCache map, keyed by the robots.txt URL; the third result component
lists the robots.txt URLs fetched during the call (the I/O performed).
Any error thrown inside the try block — an unparsable URL, a rejected
fetch, a throwing parser — is caught and answered with true, with the
cache left unchanged: only a successful fetch-and-parse inserts a cache
entry.
-/
def checkRobotsTxt (E : RobotsEnv) (cache : List (String × (String → Bool)))
    (url : String) : Bool × List (String × (String → Bool)) × List String :=
  match E.parseUrl url with
  | none => (true, cache, [])
  | some (proto, host) =>
      let robotsUrl := robotsUrlOf proto host
      match cache.lookup robotsUrl with
      | some rules => (rules url, cache, [])
      | none =>
          match E.robotsNet robotsUrl with
          | none => (true, cache, [robotsUrl])
          | some body =>
              match E.parseRobots robotsUrl body with
              | none => (true, cache, [robotsUrl])
              | some rules => (rules url, (robotsUrl, rules) :: cache, [robotsUrl])

/-- A robots environment whose robots.txt fetch always fails, for
evaluating the failure path at a concrete input. -/
def robotsEnvFail : RobotsEnv :=
  { robotsNet := fun _ => none,
    parseUrl := fun u =>
      if u = "http://h.example/page" then some ("http:", "h.example") else none,
    parseRobots := fun _ _ => some (fun _ => true) }

/-- C5 (counterexample to the claim as stated): when the robots.txt fetch
fails, no permissive entry is cached — the cache is left empty — and a
second isAllowed check for the same host performs the robots.txt fetch
again instead of consulting the cache. -/
theorem C5_failure_not_cached :
    (checkRobotsTxt robotsEnvFail [] "http://h.example/page").2.2 =
      ["http://h.example/robots.txt"] ∧
    ((checkRobotsTxt robotsEnvFail [] "http://h.example/page").2.1).isEmpty = true ∧
    (checkRobotsTxt robotsEnvFail
        ((checkRobotsTxt robotsEnvFail [] "http://h.example/page").2.1)
        "http://h.example/page").2.2 = ["http://h.example/robots.txt"] := by
  refine ⟨rfl, rfl, rfl⟩

/-- C5 (amended): for a host not yet in the cache, a successful robots.txt
fetch-and-parse caches the rule set keyed by the robots.txt URL, and any
later check that finds a cache entry for its host performs no I/O; but
when the fetch fails, the check answers true while caching nothing, so a
subsequent check for the same host repeats the fetch. -/
theorem C5_cache_only_on_success (E : RobotsEnv)
    (cache : List (String × (String → Bool))) (url proto host : String)
    (hp : E.parseUrl url = some (proto, host))
    (hmiss : cache.lookup (robotsUrlOf proto host) = none) :
    (∀ body rules, E.robotsNet (robotsUrlOf proto host) = some body →
        E.parseRobots (robotsUrlOf proto host) body = some rules →
        checkRobotsTxt E cache url =
          (rules url, (robotsUrlOf proto host, rules) :: cache,
            [robotsUrlOf proto host])) ∧
    (E.robotsNet (robotsUrlOf proto host) = none →
        checkRobotsTxt E cache url = (true, cache, [robotsUrlOf proto host])) ∧
    (∀ cache2 rules2, cache2.lookup (robotsUrlOf proto host) = some rules2 →
        checkRobotsTxt E cache2 url = (rules2 url, cache2, [])) := by
  refine ⟨?_, ?_, ?_⟩
  · intro body rules hnet hparse
    simp [checkRobotsTxt, hp, hmiss, hnet, hparse]
  · intro hnet
    simp [checkRobotsTxt, hp, hmiss, hnet]
  · intro cache2 rules2 hhit
    simp [checkRobotsTxt, hp, hhit]

/-- Witness for C5_cache_only_on_success: the failure branch evaluated at
the concrete always-failing robots environment. -/
theorem C5_cache_only_on_success_witness :
    checkRobotsTxt robotsEnvFail [] "http://h.example/page" =
      (true, [], ["http://h.example/robots.txt"]) :=
  (C5_cache_only_on_success robotsEnvFail [] "http://h.example/page"
    "http:" "h.example" rfl rfl).2.1 rfl

/-- C6 (confirmed): when the host's robots.txt cannot be fetched (the
request rejects: 404, timeout, connection error) or its parse throws on a
malformed body, the robots check answers true — fail-open — so robots.txt
unavailability never blocks crawling that host. -/
theorem C6_robots_fail_open (E : RobotsEnv)
    (cache : List (String × (String → Bool))) (url proto host : String)
    (hp : E.parseUrl url = some (proto, host))
    (hmiss : cache.lookup (robotsUrlOf proto host) = none)
    (hfail : E.robotsNet (robotsUrlOf proto host) = none ∨
      ∃ body, E.robotsNet (robotsUrlOf proto host) = some body ∧
        E.parseRobots (robotsUrlOf proto host) body = none) :
    (checkRobotsTxt E cache url).1 = true := by
  rcases hfail with hnet | ⟨body, hnet, hparse⟩
  · simp [checkRobotsTxt, hp, hmiss, hnet]
  · simp [checkRobotsTxt, hp, hmiss, hnet, hparse]

/-- Witness for C6_robots_fail_open at the concrete always-failing robots
environment. -/
theorem C6_robots_fail_open_witness :
    (checkRobotsTxt robotsEnvFail [] "http://h.example/page").1 = true :=
  C6_robots_fail_open robotsEnvFail [] "http://h.example/page" "http:"
    "h.example" rfl rfl (Or.inl rfl)

/-- An anchor element matched by the cheerio selector for anchors with an
href attribute; title and target attributes may be absent. -/
structure Anchor where
  text : String
  href : String
  title : Option String
  target : Option String
deriving DecidableEq, Repr

/-- An image element matched by the selector for images with a src
attribute. -/
structure Img where
  src : String
  alt : Option String
  title : Option String
  width : Option String
  height : Option String
deriving DecidableEq, Repr

/-- A link record as pushed by extractLinks. -/
structure LinkRecord where
  text : String
  url : String
  title : String
  target : String
deriving DecidableEq, Repr

/-- An image record as pushed by extractImages. -/
structure ImageRecord where
  src : String
  alt : String
  title : String
  width : String
  height : String
deriving DecidableEq, Repr

/-- The parsed document as far as extractPageData inspects it through
cheerio: the title element text, the first h1 text, the body text, the
serialized html, the anchor and image elements, and the contents of the
well-known meta tags (none when the tag is absent). -/
structure Doc where
  titleTag : String
  firstH1 : String
  bodyText : String
  html : String
  anchors : List Anchor
  imgs : List Img
  metaDescription : Option String
  metaKeywords : Option String
  metaAuthor : Option String
  metaViewport : Option String
  metaCharset : Option String
  metaContentTypeHeader : Option String
deriving DecidableEq, Repr

/-- The body of the anchor loop in extractLinks (crawler.js lines
615-631): skips an anchor whose href is falsy, absolutizes the href
against the base URL via the URL constructor (the oracle resolve; none
models a thrown TypeError, logged and skipped), and otherwise builds the
link record with trimmed text and defaulted title and target. -/
def linkOf (resolve : String → String → Option String) (baseUrl : String)
    (a : Anchor) : Option LinkRecord :=
  if a.href.isEmpty then none
  else
    match resolve a.href baseUrl with
    | none => none
    | some abs =>
        some { text := strTrim a.text, url := abs,
               title := jsOrS a.title "", target := jsOrS a.target "_self" }

/-- Embedding of extractLinks (crawler.js lines 613-633): iterates the
anchors in document order, pushing one record per convertible anchor onto
the links array. -/
def extractLinks (resolve : String → String → Option String)
    (anchors : List Anchor) (baseUrl : String) : List LinkRecord :=
  anchors.foldl
    (fun acc a =>
      match linkOf resolve baseUrl a with
      | some r => acc ++ [r]
      | none => acc) []

/-- The body of the image loop in extractImages (crawler.js lines
635-656). -/
def imageOf (resolve : String → String → Option String) (baseUrl : String)
    (im : Img) : Option ImageRecord :=
  if im.src.isEmpty then none
  else
    match resolve im.src baseUrl with
    | none => none
    | some abs =>
        some { src := abs, alt := jsOrS im.alt "", title := jsOrS im.title "",
               width := jsOrS im.width "", height := jsOrS im.height "" }

/-- Embedding of extractImages (crawler.js lines 635-656). -/
def extractImages (resolve : String → String → Option String)
    (imgs : List Img) (baseUrl : String) : List ImageRecord :=
  imgs.foldl
    (fun acc im =>
      match imageOf resolve baseUrl im with
      | some r => acc ++ [r]
      | none => acc) []

/-- A page record as built by extractPageData; the metadata object is
modelled as an ordered key-value mapping. -/
structure PageRecord where
  title : String
  url : String
  timestamp : String
  text : String
  html : String
  links : List LinkRecord
  images : List ImageRecord
  meta : List (String × String)
  statusCode : Nat
  contentType : String
deriving DecidableEq, Repr

/-- Embedding of extractPageData (crawler.js lines 592-611).  status and
contentTypeHdr are the transport metadata of the response object (none
models the undefined fields of the curl pseudo-response); now is the
timestamp oracle. -/
def extractPageData (resolve : String → String → Option String) (d : Doc)
    (url : String) (status : Option Nat) (contentTypeHdr : Option String)
    (now : String) : PageRecord :=
  { title := jsOr (strTrim d.titleTag) (jsOr (strTrim d.firstH1) "No Title"),
    url := url,
    timestamp := now,
    text := strTrim d.bodyText,
    html := d.html,
    links := extractLinks resolve d.anchors url,
    images := extractImages resolve d.imgs url,
    meta := [("description", jsOrS d.metaDescription ""),
             ("keywords", jsOrS d.metaKeywords ""),
             ("author", jsOrS d.metaAuthor ""),
             ("viewport", jsOrS d.metaViewport ""),
             ("charset", jsOrS d.metaCharset (jsOrS d.metaContentTypeHeader ""))],
    statusCode := jsOrN status 200,
    contentType := jsOrS contentTypeHdr "text/html" }

/-- A link as collected inside the browser by the puppeteer page
evaluation: the DOM href property is already absolute and the title
property is always a string. -/
structure PupLink where
  text : String
  url : String
  title : String
deriving DecidableEq, Repr

/-- An image as collected inside the browser by the puppeteer page
evaluation. -/
structure PupImg where
  src : String
  alt : String
  title : String
deriving DecidableEq, Repr

/-- The rendered document as read by the puppeteer page evaluation
(crawler.js lines 468-492). -/
structure PupDoc where
  title : String
  href : String
  bodyText : String
  html : String
  links : List PupLink
  images : List PupImg
  metaDescription : Option String
  metaKeywords : Option String
  metaAuthor : Option String
deriving DecidableEq, Repr

/-- The page data object built by the puppeteer page evaluation; its meta
object carries only description, keywords and author. -/
structure PupRecord where
  title : String
  url : String
  timestamp : String
  text : String
  html : String
  links : List PupLink
  images : List PupImg
  meta : List (String × String)
deriving DecidableEq, Repr

/-- Embedding of the page.evaluate body of crawlWithPuppeteer (crawler.js
lines 468-492): the metadata mapping has exactly the three keys
description, keywords and author. -/
def pupPageData (now : String) (d : PupDoc) : PupRecord :=
  { title := d.title,
    url := d.href,
    timestamp := now,
    text := d.bodyText,
    html := d.html,
    links := d.links,
    images := d.images,
    meta := [("description", jsOrS d.metaDescription ""),
             ("keywords", jsOrS d.metaKeywords ""),
             ("author", jsOrS d.metaAuthor "")] }

/-- Helper: the push-loop of extractLinks prepends its accumulator and
otherwise behaves as a filterMap over the anchors. -/
theorem extractLinks_go (resolve : String → String → Option String)
    (baseUrl : String) :
    ∀ (anchors : List Anchor) (acc : List LinkRecord),
      anchors.foldl
        (fun acc a =>
          match linkOf resolve baseUrl a with
          | some r => acc ++ [r]
          | none => acc) acc =
        acc ++ anchors.filterMap (linkOf resolve baseUrl) := by
  intro anchors
  induction anchors with
  | nil => intro acc; simp
  | cons a rest ih =>
      intro acc
      cases h : linkOf resolve baseUrl a with
      | none => simp [List.foldl_cons, h, ih]
      | some r => simp [List.foldl_cons, h, ih]

/-- C7 (amended): the links sequence of an extracted page contains one
record per anchor with a resolvable, non-empty href, in document order;
duplicate anchors resolving to the same absolute URL are all retained —
no per-URL deduplication happens. -/
theorem C7_links_keep_duplicates (resolve : String → String → Option String)
    (d : Doc) (url : String) (status : Option Nat)
    (contentTypeHdr : Option String) (now : String) :
    (extractPageData resolve d url status contentTypeHdr now).links =
      d.anchors.filterMap (linkOf resolve url) := by
  have h := extractLinks_go resolve url d.anchors []
  simpa [extractPageData, extractLinks] using h

/-- A page document holding two anchors that absolutize to the same URL. -/
def dupAnchorDoc : Doc :=
  { titleTag := "T", firstH1 := "", bodyText := "", html := "",
    anchors := [{ text := "first", href := "http://dup.example/x",
                  title := none, target := none },
                { text := "second", href := "http://dup.example/x",
                  title := none, target := none }],
    imgs := [], metaDescription := none, metaKeywords := none,
    metaAuthor := none, metaViewport := none, metaCharset := none,
    metaContentTypeHeader := none }

/-- C7 (counterexample to the claim as stated): a page with two anchors to
the same absolutized URL yields a links sequence with two records of that
URL — the per-page, per-URL uniqueness the claim asserts fails. -/
theorem C7_duplicate_links_remain :
    ¬ List.Pairwise (fun a b : LinkRecord => a.url ≠ b.url)
      (extractPageData (fun h _ => some h) dupAnchorDoc
        "http://base.example/" none none "t").links := by
  decide

/-- C8 (amended): a page record built by extractPageData — the axios and
curl paths — always carries exactly the five metadata keys description,
keywords, author, viewport and charset, each bound to the corresponding
meta tag content or to the empty string when that tag is missing; the
puppeteer path instead produces only description, keywords and author. -/
theorem C8_metadata_keys (resolve : String → String → Option String) (d : Doc)
    (url : String) (status : Option Nat) (contentTypeHdr : Option String)
    (now : String) (p : PupDoc) :
    ((extractPageData resolve d url status contentTypeHdr now).meta).map Prod.fst =
      ["description", "keywords", "author", "viewport", "charset"] ∧
    List.lookup "description"
        (extractPageData resolve d url status contentTypeHdr now).meta =
      some (jsOrS d.metaDescription "") ∧
    List.lookup "keywords"
        (extractPageData resolve d url status contentTypeHdr now).meta =
      some (jsOrS d.metaKeywords "") ∧
    List.lookup "author"
        (extractPageData resolve d url status contentTypeHdr now).meta =
      some (jsOrS d.metaAuthor "") ∧
    List.lookup "viewport"
        (extractPageData resolve d url status contentTypeHdr now).meta =
      some (jsOrS d.metaViewport "") ∧
    List.lookup "charset"
        (extractPageData resolve d url status contentTypeHdr now).meta =
      some (jsOrS d.metaCharset (jsOrS d.metaContentTypeHeader "")) ∧
    ((pupPageData now p).meta).map Prod.fst =
      ["description", "keywords", "author"] ∧
    List.lookup "viewport" (pupPageData now p).meta = none := by
  refine ⟨rfl, rfl, rfl, rfl, rfl, rfl, rfl, rfl⟩

/-- A rendered document whose meta tags are all present, for evaluating
the puppeteer metadata shape at a concrete input. -/
def pupDocEx : PupDoc :=
  { title := "P", href := "http://p.example/", bodyText := "b", html := "h",
    links := [], images := [],
    metaDescription := some "d", metaKeywords := some "k",
    metaAuthor := some "a" }

/-- C8 (counterexample to the claim as stated): a page fetched through the
puppeteer method yields a metadata mapping with no viewport and no charset
key at all, so the five-key guarantee does not hold for every crawl
method. -/
theorem C8_puppeteer_meta_incomplete :
    List.lookup "viewport" (pupPageData "t" pupDocEx).meta = none ∧
    List.lookup "charset" (pupPageData "t" pupDocEx).meta = none ∧
    ((pupPageData "t" pupDocEx).meta).map Prod.fst =
      ["description", "keywords", "author"] := by
  refine ⟨rfl, rfl, rfl⟩

/-- A JavaScript value flowing through the url parameter of
crawlWithAxios: the seed is a string, but the recursive calls at line 427
pass the whole link record object rather than its url property. -/
inductive JVal where
  | str : String → JVal
  | obj : LinkRecord → JVal
deriving DecidableEq, Repr

/-- An entry of the heterogeneous crawledData array: extractPageData
records from the axios and curl paths, and puppeteer evaluation records. -/
inductive CrawledRecord where
  | page : PageRecord → CrawledRecord
  | pup : PupRecord → CrawledRecord
deriving DecidableEq, Repr

/-- The mutable per-session state of the WebCrawler instance: the visited
set, the collected records, and the robots cache. -/
structure CrawlState where
  visitedUrls : List JVal
  crawledData : List CrawledRecord
  robotsCache : List (String × (String → Bool))

/-- The session options fixed in the WebCrawler constructor. -/
structure CrawlerOptions where
  maxDepth : Nat
  delay : Nat
  maxPages : Nat
  userAgent : String
  respectRobots : Bool
  followRedirects : Bool
  timeout : Nat
  retries : Nat
  concurrent : Nat
deriving Repr

/-- The per-call options object of crawlWithAxios; an absent property
behaves as 0 under the strict comparisons depth > 0 and retries > 0. -/
structure AxOpts where
  depth : Nat
  retries : Nat
deriving DecidableEq, Repr

/-- The response makeRequest hands back to crawlWithAxios, already parsed
by cheerio into a document. -/
structure AxResp where
  doc : Doc
  status : Nat
  contentType : Option String
deriving DecidableEq, Repr

/-- Network and library oracles of the crawl methods.  net gives the
outcome of makeRequest for a string URL (none models a thrown fetch
error after retries). -/
structure CrawlEnv where
  net : String → Option AxResp
  robots : RobotsEnv
  resolve : String → String → Option String
  now : String

/-- I/O events of a crawl, in emission order: a makeRequest invocation for
a url value, or a robots.txt fetch. -/
inductive Ev where
  | request : JVal → Ev
  | robotsGet : String → Ev
deriving DecidableEq, Repr

/-- Outcome of the fetch for a url value: axios rejects a non-string url
(the link record objects of the recursive calls) as an invalid URL. -/
def fetchJ (net : String → Option AxResp) : JVal → Option AxResp
  | .str s => net s
  | .obj _ => none

/-- Membership of a url value in the visited set.  The JavaScript Set
compares objects by identity, and the link records of the recursive calls
are freshly allocated by extractLinks, so an object value is never found
in the set. -/
def jvalMem (v : JVal) (visited : List JVal) : Bool :=
  match v with
  | .str s => visited.contains (.str s)
  | .obj _ => false

/-- The string the url value contributes when extractPageData stores and
resolves against it; the object case is unreachable because its fetch
always fails. -/
def jvalText : JVal → String
  | .str s => s
  | .obj _ => "[object Object]"

/-- Robots gate as invoked from the crawl on a url value: a link record
object makes the URL constructor throw inside checkRobotsTxt, so the
catch answers true without touching the cache or the network. -/
def checkRobotsJ (E : RobotsEnv) (cache : List (String × (String → Bool))) :
    JVal → Bool × List (String × (String → Bool)) × List String
  | .str s => checkRobotsTxt E cache s
  | .obj _ => (true, cache, [])

mutual

/--
Embedding of crawlWithAxios (crawler.js lines 384-445), indexed by fuel so
that the definition is structurally recursive and computable; the source
recursion strictly decreases the lexicographic measure (depth, retries,
remaining links), so any sufficiently large fuel reproduces it and the
out-of-fuel default is never reached on the inputs the theorems use.
In order: the visited check, the maxPages bound, the robots gate (which
updates the robots cache in the state), the fetch (an I/O event; on a
thrown fetch the optional crawl-level retry decrements options.retries),
then on success the record push, the visited insertion, and for
options.depth > 0 the recursive crawl of the first concurrent extracted
links — passing the link record object itself, exactly as the source
does.  Results are (return value, final state, I/O trace).
-/
def crawlWithAxios (E : CrawlEnv) (cfg : CrawlerOptions) :
    Nat → JVal → AxOpts → CrawlState → Option PageRecord × CrawlState × List Ev
  | 0, _, _, s => (none, s, [])
  | Nat.succ n, v, o, s =>
      if jvalMem v s.visitedUrls then (none, s, [])
      else if cfg.maxPages ≤ s.visitedUrls.length then (none, s, [])
      else
        let rc := if cfg.respectRobots then checkRobotsJ E.robots s.robotsCache v
                  else (true, s.robotsCache, [])
        let s1 : CrawlState := { s with robotsCache := rc.2.1 }
        let robotsEvs := rc.2.2.map Ev.robotsGet
        if rc.1 then
          match fetchJ E.net v with
          | some resp =>
              let url := jvalText v
              let pageData := extractPageData E.resolve resp.doc url
                (some resp.status) resp.contentType E.now
              let s2 : CrawlState := { s1 with
                crawledData := s1.crawledData ++ [CrawledRecord.page pageData],
                visitedUrls := s1.visitedUrls ++ [v] }
              if 0 < o.depth then
                let links := extractLinks E.resolve resp.doc.anchors url
                let r := crawlLinks E cfg n (links.take cfg.concurrent)
                  (o.depth - 1) s2
                (some pageData, r.1, robotsEvs ++ [Ev.request v] ++ r.2)
              else (some pageData, s2, robotsEvs ++ [Ev.request v])
          | none =>
              if 0 < o.retries then
                let r := crawlWithAxios E cfg n v
                  { depth := o.depth, retries := o.retries - 1 } s1
                (r.1, r.2.1, robotsEvs ++ [Ev.request v] ++ r.2.2)
              else (none, s1, robotsEvs ++ [Ev.request v])
        else (none, s1, robotsEvs)

/-- The child loop of crawlWithAxios (crawler.js lines 424-428): crawls
each extracted link record in order, threading the session state and
passing a fresh options object holding only the decremented depth. -/
def crawlLinks (E : CrawlEnv) (cfg : CrawlerOptions) :
    Nat → List LinkRecord → Nat → CrawlState → CrawlState × List Ev
  | 0, _, _, s => (s, [])
  | Nat.succ _, [], _, s => (s, [])
  | Nat.succ n, l :: ls, d, s =>
      let r := crawlWithAxios E cfg n (.obj l) { depth := d, retries := 0 } s
      let r2 := crawlLinks E cfg n ls d r.2.1
      (r2.1, r.2.2 ++ r2.2)

end

/-- Embedding of crawlWithPuppeteer (crawler.js lines 447-518): no visited
check, no maxPages bound, no robots gate; on a successful navigation the
evaluated record is pushed and the url added to the visited set; any
error yields null with the state unchanged. -/
def crawlWithPuppeteer (pnet : String → Option PupDoc) (now : String)
    (url : String) (s : CrawlState) : Option PupRecord × CrawlState × List Ev :=
  match pnet url with
  | none => (none, s, [Ev.request (.str url)])
  | some d =>
      let pageData := pupPageData now d
      (some pageData,
       { s with crawledData := s.crawledData ++ [CrawledRecord.pup pageData],
                visitedUrls := s.visitedUrls ++ [JVal.str url] },
       [Ev.request (.str url)])

/-- Embedding of crawlWithCurl (crawler.js lines 520-554): shells out to
curl (none models a non-zero exit), parses stdout, and pushes the record
and the url unconditionally — again no visited check, no maxPages bound,
no robots gate.  The pseudo-response has no status and no headers, so the
record defaults to status 200 and content type text/html. -/
def crawlWithCurl (curlNet : String → Option Doc)
    (resolve : String → String → Option String) (now : String) (url : String)
    (s : CrawlState) : Option PageRecord × CrawlState × List Ev :=
  match curlNet url with
  | none => (none, s, [Ev.request (.str url)])
  | some doc =>
      let pageData := extractPageData resolve doc url none none now
      (some pageData,
       { s with crawledData := s.crawledData ++ [CrawledRecord.page pageData],
                visitedUrls := s.visitedUrls ++ [JVal.str url] },
       [Ev.request (.str url)])

/-- Helper for the maxPages bound: both crawlWithAxios and its child loop
preserve the invariant that the visited set has at most maxPages entries,
because a url is added only after the strict size check, and every
recursive call threads a state already satisfying the bound. -/
theorem crawl_visited_bound (E : CrawlEnv) (cfg : CrawlerOptions) :
    ∀ fuel : Nat,
      (∀ v o s, s.visitedUrls.length ≤ cfg.maxPages →
        (crawlWithAxios E cfg fuel v o s).2.1.visitedUrls.length ≤ cfg.maxPages) ∧
      (∀ ls d s, s.visitedUrls.length ≤ cfg.maxPages →
        (crawlLinks E cfg fuel ls d s).1.visitedUrls.length ≤ cfg.maxPages) := by
  intro fuel
  induction fuel with
  | zero =>
      refine ⟨?_, ?_⟩
      · intro v o s h
        simpa [crawlWithAxios] using h
      · intro ls d s h
        simpa [crawlLinks] using h
  | succ n ih =>
      refine ⟨?_, ?_⟩
      · intro v o s h
        simp only [crawlWithAxios]
        repeat' split
        all_goals dsimp only
        all_goals
          first
          | simpa using h
          | exact ih.1 _ _ _ (by simpa using h)
          | exact ih.2 _ _ _ (by
              simp only [List.length_append, List.length_cons, List.length_nil]
              omega)
          | (simp only [List.length_append, List.length_cons, List.length_nil]
             omega)
      · intro ls d s h
        match ls with
        | [] => simpa [crawlLinks] using h
        | l :: rest =>
            simp only [crawlLinks]
            exact ih.2 rest d _ (ih.1 (.obj l) { depth := d, retries := 0 } s h)

/-- C4 (amended): under crawlWithAxios the visited set never outgrows
maxPages — a url is only admitted when the visited count is strictly
below the bound — but the claim does not extend to the other crawl
methods: crawlWithPuppeteer and crawlWithCurl perform no maxPages check
at all. -/
theorem C4_axios_visited_bounded (E : CrawlEnv) (cfg : CrawlerOptions)
    (fuel : Nat) (v : JVal) (o : AxOpts) (s : CrawlState)
    (h : s.visitedUrls.length ≤ cfg.maxPages) :
    (crawlWithAxios E cfg fuel v o s).2.1.visitedUrls.length ≤ cfg.maxPages :=
  (crawl_visited_bound E cfg fuel).1 v o s h

/-- A page document with a single anchor pointing at the child URL. -/
def seedDoc : Doc :=
  { titleTag := "A", firstH1 := "", bodyText := "", html := "",
    anchors := [{ text := "b", href := "http://b.example/",
                  title := none, target := none }],
    imgs := [], metaDescription := none, metaKeywords := none,
    metaAuthor := none, metaViewport := none, metaCharset := none,
    metaContentTypeHeader := none }

/-- A child page document with no anchors. -/
def childDoc : Doc :=
  { titleTag := "B", firstH1 := "", bodyText := "", html := "",
    anchors := [], imgs := [], metaDescription := none, metaKeywords := none,
    metaAuthor := none, metaViewport := none, metaCharset := none,
    metaContentTypeHeader := none }

/-- A crawl environment where both the seed and the linked child URL are
served successfully. -/
def axEnv : CrawlEnv :=
  { net := fun u =>
      if u = "http://a.example/" then
        some { doc := seedDoc, status := 200, contentType := none }
      else if u = "http://b.example/" then
        some { doc := childDoc, status := 200, contentType := none }
      else none,
    robots := robotsEnvFail,
    resolve := fun h _ => some h,
    now := "t" }

/-- Session options for the concrete crawl evaluations. -/
def axCfg : CrawlerOptions :=
  { maxDepth := 1, delay := 0, maxPages := 10, userAgent := "UA",
    respectRobots := false, followRedirects := true, timeout := 0,
    retries := 3, concurrent := 5 }

/-- The empty session state. -/
def state0 : CrawlState :=
  { visitedUrls := [], crawledData := [], robotsCache := [] }

/-- Witness for C4_axios_visited_bounded at a concrete crawl. -/
theorem C4_axios_visited_bounded_witness :
    (crawlWithAxios axEnv axCfg 10 (.str "http://a.example/")
      { depth := 1, retries := 0 } state0).2.1.visitedUrls.length ≤
      axCfg.maxPages :=
  C4_axios_visited_bounded axEnv axCfg 10 (.str "http://a.example/")
    { depth := 1, retries := 0 } state0 (by decide)

/-- A trivial page document for the curl evaluations. -/
def plainDoc : Doc :=
  { titleTag := "P", firstH1 := "", bodyText := "", html := "",
    anchors := [], imgs := [], metaDescription := none, metaKeywords := none,
    metaAuthor := none, metaViewport := none, metaCharset := none,
    metaContentTypeHeader := none }

/-- Session options with a one-page budget. -/
def cfgOnePage : CrawlerOptions :=
  { maxDepth := 3, delay := 0, maxPages := 1, userAgent := "UA",
    respectRobots := true, followRedirects := true, timeout := 0,
    retries := 3, concurrent := 5 }

/-- C4 (counterexample to the claim as stated): with maxPages = 1, two
successful crawlWithCurl calls on distinct URLs grow the visited set to
two entries — the curl method (like the puppeteer one) never consults the
maxPages bound, so the invariant does not hold for every crawl method. -/
theorem C4_curl_exceeds_maxPages :
    ¬ ((crawlWithCurl (fun _ => some plainDoc) (fun h _ => some h) "t"
          "http://b.example/"
          ((crawlWithCurl (fun _ => some plainDoc) (fun h _ => some h) "t"
            "http://a.example/" state0).2.1)).2.1.visitedUrls.length ≤
        cfgOnePage.maxPages) := by
  decide

/-- C9 (evaluation at the failing input): a depth-1 crawl of a seed page
whose single anchor resolves to an available child URL fetches only the
seed.  The recursive call receives the whole link record object instead
of its url string — visible in the I/O trace — so the child fetch fails
as an invalid URL and no extracted URL is ever fetched at depth 1, even
though the network serves it. -/
theorem C9_child_links_never_fetched :
    (crawlWithAxios axEnv axCfg 10 (.str "http://a.example/")
        { depth := 1, retries := 0 } state0).2.1.visitedUrls =
      [.str "http://a.example/"] ∧
    (crawlWithAxios axEnv axCfg 10 (.str "http://a.example/")
        { depth := 1, retries := 0 } state0).2.1.crawledData.length = 1 ∧
    (crawlWithAxios axEnv axCfg 10 (.str "http://a.example/")
        { depth := 1, retries := 0 } state0).2.2 =
      [Ev.request (.str "http://a.example/"),
       Ev.request (.obj { text := "b", url := "http://b.example/",
                          title := "", target := "_self" })] ∧
    (axEnv.net "http://b.example/").isSome = true := by
  refine ⟨by decide, by decide, by decide, by decide⟩

/-- C10 (confirmed): calling crawlWithAxios on a url already in the
visited set returns null immediately: no robots check, no fetch, and the
session state — visited set, collected records, robots cache — is
returned unchanged. -/
theorem C10_visited_noop (E : CrawlEnv) (cfg : CrawlerOptions) (url : String)
    (o : AxOpts) (s : CrawlState) (n : Nat)
    (h : jvalMem (.str url) s.visitedUrls = true) :
    crawlWithAxios E cfg (n + 1) (.str url) o s = (none, s, []) := by
  simp [crawlWithAxios, h]

/-- A session state that has already visited the seed URL. -/
def visitedState : CrawlState :=
  { visitedUrls := [.str "http://a.example/"], crawledData := [],
    robotsCache := [] }

/-- Witness for C10_visited_noop at a concrete visited URL. -/
theorem C10_visited_noop_witness :
    crawlWithAxios axEnv axCfg 5 (.str "http://a.example/")
      { depth := 3, retries := 2 } visitedState = (none, visitedState, []) :=
  C10_visited_noop axEnv axCfg "http://a.example/"
    { depth := 3, retries := 2 } visitedState 4 (by decide)

end WebCrawler
